import Mathlib

/-!
Shallow embedding of the SooraExpress backend route handlers
(`src/backend/src/routes/products.ts`, `src/backend/src/routes/admin.ts`,
and the users/addresses router) over explicit in-memory stores.

Conventions of the embedding:
* a database table is a `List` of records; Prisma's `findUnique` is
  `List.find?` on the id, `updateMany`/`update` are `List.map`,
  `create` appends, `delete` filters;
* JavaScript numbers that hold money are `Rat`; ids and counters are `Nat`;
  timestamps (`Date`) are `Nat` clock values supplied by the caller;
* an absent (`undefined`) request-body or query field is `none`; JS
  truthiness of such an optional value is made explicit at each use site;
* a handler returns its response value paired with the post-state of the
  store; `none` (or `false`) as response encodes the 404 Not Found reply.
-/

namespace Soora

/-- JS `\s` whitespace class (ASCII part plus NBSP; the handlers only ever
see spaces in product names). -/
def jsWs (c : Char) : Bool :=
  c = ' ' || c = '\t' || c = '\n' || c = '\r' || c = '\x0b' || c = '\x0c' || c = ' '

/-- One pass of `String.replace(/\s+/g, '-')`: the flag records whether we
are inside a whitespace run whose hyphen has already been emitted. -/
def collapseAux : Bool → List Char → List Char
  | _, [] => []
  | inRun, c :: rest =>
    if jsWs c then
      (if inRun then ([] : List Char) else ['-']) ++ collapseAux true rest
    else
      c :: collapseAux false rest

/-- `name.toLowerCase().replace(/\s+/g, '-')` from the admin
`POST /products` handler (admin.ts line 27). `Char.toLower` agrees with JS
`toLowerCase` on the ASCII names in play. -/
def slugify (name : String) : String :=
  String.mk (collapseAux false (name.data.map Char.toLower))

example : slugify "Red Silk Scarf " = "red-silk-scarf-" := by decide
example : slugify "A  B" = "a-b" := by decide

/-- An `Address` row. `id` is the primary key (unique in any store the
database hands us), `userId` the owning user. -/
structure Address where
  id : Nat
  userId : Nat
  type : String
  name : String
  street : String
  unit : String
  building : String
  postalCode : String
  district : String
  deliveryNotes : String
  isDefault : Bool
deriving Repr, DecidableEq

/-- The JSON body of `POST /addresses` and `PUT /addresses/:id`: every
field may be absent (`undefined` in JS). -/
structure AddressBody where
  type : Option String
  name : Option String
  street : Option String
  unit : Option String
  building : Option String
  postalCode : Option String
  district : Option String
  isDefault : Option Bool
  deliveryNotes : Option String
deriving Repr, DecidableEq

/-- JS truthiness of the optional `isDefault` body field:
`undefined` and `false` are falsy. -/
def truthy : Option Bool → Bool
  | some true => true
  | _ => false

/-- The `updateMany` of the create path (part_000 lines 84-89): flip
`isDefault` off on every address of `uid` that has it set. -/
def unsetAll (uid : Nat) (a : Address) : Address :=
  if a.userId == uid && a.isDefault then { a with isDefault := false } else a

/-- The `updateMany` of the update path (part_000 lines 127-136): same,
but excluding the address being updated (`id: { not: req.params.id }`). -/
def unsetStep (uid aid : Nat) (a : Address) : Address :=
  if a.userId == uid && a.isDefault && a.id != aid then
    { a with isDefault := false }
  else a

/-- Prisma `update` data semantics: an `undefined` body field leaves the
column as it is, a present one overwrites it. -/
def applyBody (b : AddressBody) (a : Address) : Address :=
  { a with
    type := b.type.getD a.type
    name := b.name.getD a.name
    street := b.street.getD a.street
    unit := b.unit.getD a.unit
    building := b.building.getD a.building
    postalCode := b.postalCode.getD a.postalCode
    district := b.district.getD a.district
    isDefault := b.isDefault.getD a.isDefault
    deliveryNotes := b.deliveryNotes.getD a.deliveryNotes }

/-- The per-row write of `prisma.address.update({ where: { id } })`. -/
def writeStep (aid : Nat) (b : AddressBody) (a : Address) : Address :=
  if a.id == aid then applyBody b a else a

/-- `POST /addresses` (part_000 lines 74-110): if the body's `isDefault`
is truthy, first unset every other default of the caller, then insert the
new row (`isDefault: isDefault || false`). `newId` is the fresh primary
key generated by the database; absent optional columns are stored as
empty strings (the schema default). -/
def createAddress (uid newId : Nat) (b : AddressBody) (s : List Address) :
    Address × List Address :=
  let s1 := if truthy b.isDefault then s.map (unsetAll uid) else s
  let a : Address :=
    { id := newId
      userId := uid
      type := b.type.getD ""
      name := b.name.getD ""
      street := b.street.getD ""
      unit := b.unit.getD ""
      building := b.building.getD ""
      postalCode := b.postalCode.getD ""
      district := b.district.getD ""
      deliveryNotes := b.deliveryNotes.getD ""
      isDefault := truthy b.isDefault }
  (a, s1 ++ [a])

/-- `PUT /addresses/:id` (part_000 lines 113-157): `findUnique` on the id,
404 (`none`) when the row is missing or owned by someone else; otherwise
conditionally mass-unset the caller's other defaults, then write the body
onto the row. -/
def updateAddress (uid aid : Nat) (b : AddressBody) (s : List Address) :
    Option Address × List Address :=
  match s.find? (fun a => a.id == aid) with
  | none => (none, s)
  | some existing =>
    if existing.userId == uid then
      let s1 := if truthy b.isDefault then s.map (unsetStep uid aid) else s
      let s2 := s1.map (writeStep aid b)
      (some (applyBody b existing), s2)
    else (none, s)

/-- `DELETE /addresses/:id` (part_000 lines 160-178): ownership check then
hard delete; `false` encodes the 404 reply. -/
def deleteAddress (uid aid : Nat) (s : List Address) : Bool × List Address :=
  match s.find? (fun a => a.id == aid) with
  | none => (false, s)
  | some existing =>
    if existing.userId == uid then
      (true, s.filter (fun a => a.id != aid))
    else (false, s)

/-- Number of addresses of `uid` currently flagged as default. -/
def countDefaults (uid : Nat) (s : List Address) : Nat :=
  (s.filter (fun a => a.userId == uid && a.isDefault)).length

/-- A `Product` row. -/
structure Product where
  id : Nat
  name : String
  slug : String
  description : String
  price : Rat
  stock : Nat
  category : String
  brand : String
  isActive : Bool
  isFeatured : Bool
  viewCount : Nat
  salesCount : Nat
  lowStockAlert : Nat
  createdAt : Nat
deriving Repr, DecidableEq

/-- An `Order` row (`deliveredAt` is nullable). -/
structure Order where
  id : Nat
  userId : Nat
  status : String
  total : Rat
  createdAt : Nat
  deliveredAt : Option Nat
deriving Repr, DecidableEq

/-- Query string of `GET /api/products` (products.ts lines 23-33), fields
already URL-decoded and numerics already through `Number(...)`; `none` is
an absent/falsy parameter. -/
structure ProductQuery where
  category : Option String
  brand : Option String
  minPrice : Option Rat
  maxPrice : Option Rat
  search : Option String
  page : Option Nat
  limit : Option Nat
deriving Repr, DecidableEq

/-- `needle` occurs as a contiguous sublist of the haystack. -/
def listContains (needle : List Char) : List Char → Bool
  | [] => needle.isEmpty
  | c :: rest => needle.isPrefixOf (c :: rest) || listContains needle rest

/-- Case-insensitive substring test: Prisma
`contains: t, mode: 'insensitive'`. -/
def containsInsensitive (s t : String) : Bool :=
  listContains (t.data.map Char.toLower) (s.data.map Char.toLower)

/-- The `where` object built by `GET /api/products` (products.ts lines
37-59), as a row predicate: always `isActive: true`; category filter only
when the parameter is present and not the literal `"All"`; `gte`/`lte`
price bounds independently; `OR` of three insensitive `contains` for
`search`. -/
def productWhere (q : ProductQuery) (p : Product) : Bool :=
  p.isActive
    && (match q.category with
        | some c => if c ≠ "All" then p.category == c else true
        | none => true)
    && (match q.brand with
        | some b => p.brand == b
        | none => true)
    && (match q.minPrice with
        | some m => decide (m ≤ p.price)
        | none => true)
    && (match q.maxPrice with
        | some m => decide (p.price ≤ m)
        | none => true)
    && (match q.search with
        | some t =>
          containsInsensitive p.name t || containsInsensitive p.brand t
            || containsInsensitive p.description t
        | none => true)

/-- `skip = (page-1)*limit`, `take = limit` window of the two listing
handlers (products.ts line 35 / admin.ts line 93 with lines 98-99). -/
def pageWindow (page lim : Nat) (l : List α) : List α :=
  (l.drop ((page - 1) * lim)).take lim

/-- `Math.ceil(total / limit)` on natural `total`, `limit` (exact for the
integer-valued JS numbers the handlers produce). -/
def jsCeilDiv (total lim : Nat) : Nat :=
  (total + lim - 1) / lim

/-- The `pagination` object of the listing responses. -/
structure Pagination where
  page : Nat
  limit : Nat
  total : Nat
  pages : Nat
deriving Repr, DecidableEq

/-- Builds the `pagination` response field (products.ts lines 73-78,
admin.ts lines 116-121). -/
def mkPagination (page lim total : Nat) : Pagination :=
  { page := page, limit := lim, total := total, pages := jsCeilDiv total lim }

/-- `GET /api/products` (products.ts lines 21-83): filter, let the store
order the rows (`orderBy: { [sortBy]: order }` — the ordering itself is the
database's work, abstracted as `ord`), window, and count. `page`/`limit`
default to 1 and 20. -/
def listProducts (q : ProductQuery) (ord : List Product → List Product)
    (db : List Product) : List Product × Pagination :=
  let page := q.page.getD 1
  let lim := q.limit.getD 20
  let matching := db.filter (productWhere q)
  (pageWindow page lim (ord matching),
   mkPagination page lim matching.length)

/-- `GET /api/products/:id` (products.ts lines 86-116): `findUnique` with
the published reviews joined (reviews omitted: no claim touches them), 404
when absent, otherwise respond with the fetched row and increment its
`viewCount` by 1 afterwards. -/
def getProductById (pid : Nat) (s : List Product) :
    Option Product × List Product :=
  match s.find? (fun p => p.id == pid) with
  | none => (none, s)
  | some p =>
    (some p,
     s.map (fun q => if q.id == pid then { q with viewCount := q.viewCount + 1 } else q))

/-- Body of the admin `POST /products` (fields forwarded as
`...req.body`). -/
structure ProductBody where
  name : String
  description : String
  price : Rat
  stock : Nat
  category : String
  brand : String
deriving Repr, DecidableEq

/-- Admin `POST /products` (admin.ts lines 17-35): insert the body with
`slug: req.body.name.toLowerCase().replace(/\s+/g, '-')`; `newId` is the
database-generated key, the remaining columns take their schema
defaults. -/
def adminCreateProduct (newId : Nat) (b : ProductBody) (db : List Product) :
    Product × List Product :=
  let p : Product :=
    { id := newId
      name := b.name
      slug := slugify b.name
      description := b.description
      price := b.price
      stock := b.stock
      category := b.category
      brand := b.brand
      isActive := true
      isFeatured := false
      viewCount := 0
      salesCount := 0
      lowStockAlert := 0
      createdAt := 0 }
  (p, db ++ [p])

/-- Admin `PUT /orders/:id/status` (admin.ts lines 129-149): write
`status`, and spread `{ deliveredAt: new Date() }` exactly when the new
status is the string `'DELIVERED'`. `now` is the clock value of
`new Date()`; a missing row makes Prisma `update` throw (the 500 path),
encoded as `none` with the store untouched. -/
def updateOrderStatus (now oid : Nat) (st : String) (s : List Order) :
    Option Order × List Order :=
  match s.find? (fun o => o.id == oid) with
  | none => (none, s)
  | some o =>
    let o' : Order :=
      { o with
        status := st
        deliveredAt := if st == "DELIVERED" then some now else o.deliveredAt }
    (some o', s.map (fun x => if x.id == oid then o' else x))

/-- Admin `GET /orders` (admin.ts lines 84-126): optional exact status
filter, `createdAt`-descending ordering done by the store (abstracted as
`ord`), the same page window and pagination object as the product
listing. -/
def adminListOrders (status : Option String) (page? lim? : Option Nat)
    (ord : List Order → List Order) (db : List Order) :
    List Order × Pagination :=
  let page := page?.getD 1
  let lim := lim?.getD 20
  let matching := db.filter (fun o =>
    match status with
    | some t => o.status == t
    | none => true)
  (pageWindow page lim (ord matching),
   mkPagination page lim matching.length)

/-- The response of admin `GET /reports/sales`. -/
structure SalesReport where
  totalRevenue : Rat
  totalOrders : Nat
  averageOrderValue : Rat
deriving Repr, DecidableEq

/-- The row filter of the sales report (admin.ts lines 260-269): status in
`['DELIVERED', 'CONFIRMED']`, plus `gte`/`lte` bounds on `createdAt` when
both dates are supplied. -/
def salesWhere (startDate endDate : Option Nat) (o : Order) : Bool :=
  (o.status == "DELIVERED" || o.status == "CONFIRMED")
    && (match startDate, endDate with
        | some sd, some ed => decide (sd ≤ o.createdAt) && decide (o.createdAt ≤ ed)
        | _, _ => true)

/-- Admin `GET /reports/sales` (admin.ts lines 256-293): fetch the
matching orders, then in memory
`totalRevenue = orders.reduce((sum, o) => sum + o.total, 0)`,
`totalOrders = orders.length`, and
`averageOrderValue = totalRevenue / totalOrders || 0` — the `|| 0` turns
the `NaN` of the empty case (`0 / 0`) into `0`, rendered here as the
zero-guard on the divisor (when `totalOrders = 0` the revenue of the empty
set is `0`, so no other non-finite case arises). -/
def salesReport (startDate endDate : Option Nat) (db : List Order) :
    SalesReport :=
  let orders := db.filter (salesWhere startDate endDate)
  let totalRevenue := orders.foldl (fun sum o => sum + o.total) 0
  let totalOrders := orders.length
  { totalRevenue := totalRevenue
    totalOrders := totalOrders
    averageOrderValue :=
      if totalOrders = 0 then 0 else totalRevenue / (totalOrders : Rat) }

/-! ### Slug derivation (claim C2) -/

theorem collapseAux_true_ws_append (w y : List Char) (hw : ∀ c ∈ w, jsWs c) :
    collapseAux true (w ++ y) = collapseAux true y := by
  induction w with
  | nil => rfl
  | cons c w ih =>
    have hc : jsWs c := hw c (List.mem_cons_self c w)
    simp only [List.cons_append, collapseAux, hc, if_true, List.nil_append]
    exact ih fun d hd => hw d (List.mem_cons_of_mem c hd)

/-- C2 (counterexample): creating a product named `"Red Silk Scarf "` does
not store the slug `red-silk-scarf`; the trailing whitespace run is also
replaced by a hyphen. -/
theorem c2_slug_counterexample :
    ((adminCreateProduct 1
        ⟨"Red Silk Scarf ", "desc", 10, 5, "Accessories", "Soora"⟩ []).1).slug
      ≠ "red-silk-scarf" := by
  decide

/-- C2 (amended): the stored slug is the name lowercased with every
maximal whitespace run — leading and trailing runs included — replaced by
a single hyphen, so `"Red Silk Scarf "` yields `red-silk-scarf-` with a
trailing hyphen. The middle conjunct is the general run-collapsing law:
a maximal whitespace run `w` preceded by the non-whitespace block `x`
becomes exactly one hyphen. -/
theorem c2_slug_amended :
    (∀ (newId : Nat) (b : ProductBody) (db : List Product),
        ((adminCreateProduct newId b db).1).slug = slugify b.name)
    ∧ (∀ x w y : List Char, (∀ c ∈ x, ¬ jsWs c) → w ≠ [] → (∀ c ∈ w, jsWs c) →
        collapseAux false (x ++ w ++ y) = x ++ '-' :: collapseAux true y)
    ∧ slugify "Red Silk Scarf " = "red-silk-scarf-" := by
  refine ⟨fun newId b db => rfl, ?_, by decide⟩
  intro x w y hx hw hws
  induction x with
  | nil =>
    cases w with
    | nil => exact absurd rfl hw
    | cons c w =>
      have hc : jsWs c := hws c (List.mem_cons_self c w)
      have hrest := collapseAux_true_ws_append w y
        fun d hd => hws d (List.mem_cons_of_mem c hd)
      simp [collapseAux, hc, hrest]
  | cons c x ih =>
    have hc : ¬ jsWs c := hx c (List.mem_cons_self c x)
    have hrest := ih fun d hd => hx d (List.mem_cons_of_mem c hd)
    simp [collapseAux, hc, ← List.append_assoc, hrest]

/-- C2 (witness for the amended theorem at concrete inputs). -/
theorem c2_slug_amended_witness :
    ((adminCreateProduct 1
        ⟨"Red Silk Scarf ", "desc", 10, 5, "Accessories", "Soora"⟩ []).1).slug
      = slugify "Red Silk Scarf "
    ∧ collapseAux false (['a'] ++ [' ', ' '] ++ ['b'])
        = ['a'] ++ '-' :: collapseAux true ['b'] :=
  ⟨c2_slug_amended.1 1 ⟨"Red Silk Scarf ", "desc", 10, 5, "Accessories", "Soora"⟩ [],
   c2_slug_amended.2.1 ['a'] [' ', ' '] ['b'] (by decide) (by decide) (by decide)⟩

/-! ### Shared list lemmas -/

/-- `find?` commutes with a map that does not change the predicate's
verdict. -/
theorem find?_map_of_pred (f : α → α) (p : α → Bool) (l : List α)
    (hf : ∀ a, p (f a) = p a) :
    (l.map f).find? p = (l.find? p).map f := by
  induction l with
  | nil => rfl
  | cons a l ih =>
    cases hp : p a with
    | true => simp [List.find?_cons, hf, hp]
    | false => simp [List.find?_cons, hf, hp, ih]

/-- Filtering sees through a map that fixes every element kept by the
filter and never changes the verdict. -/
theorem filter_map_of_fix (f : α → α) (p : α → Bool) (l : List α)
    (hf : ∀ a, p (f a) = p a) (hfix : ∀ a, p a = true → f a = a) :
    (l.map f).filter p = l.filter p := by
  induction l with
  | nil => rfl
  | cons a l ih =>
    cases hp : p a with
    | true => simp [List.filter_cons, hf, hp, hfix a hp, ih]
    | false => simp [List.filter_cons, hf, hp, ih]

/-! ### Address ownership (claim C3) -/

/-- C3: an address update or delete whose target row is missing, or owned
by a user other than the caller, replies 404 and leaves the store exactly
as it was. -/
theorem c3_ownership_not_found (uid aid : Nat) (b : AddressBody)
    (s : List Address) (h : ∀ a ∈ s, a.id = aid → a.userId ≠ uid) :
    updateAddress uid aid b s = (none, s)
      ∧ deleteAddress uid aid s = (false, s) := by
  cases hfind : s.find? (fun a => a.id == aid) with
  | none => exact ⟨by simp [updateAddress, hfind], by simp [deleteAddress, hfind]⟩
  | some a =>
    have ha : a ∈ s := List.mem_of_find?_eq_some hfind
    have hp := List.find?_some hfind
    have hne : a.userId ≠ uid := h a ha (by simpa using hp)
    exact ⟨by simp [updateAddress, hfind, hne], by simp [deleteAddress, hfind, hne]⟩

/-- C3 (witness): a concrete store whose only address with id 5 belongs to
user 2, approached by caller 1. -/
theorem c3_ownership_not_found_witness :
    updateAddress 1 5
        ⟨none, none, none, none, none, none, none, some true, none⟩
        [⟨5, 2, "HOME", "n", "st", "u", "b", "12345", "d", "", true⟩]
      = (none, [⟨5, 2, "HOME", "n", "st", "u", "b", "12345", "d", "", true⟩])
    ∧ deleteAddress 1 5
        [⟨5, 2, "HOME", "n", "st", "u", "b", "12345", "d", "", true⟩]
      = (false, [⟨5, 2, "HOME", "n", "st", "u", "b", "12345", "d", "", true⟩]) :=
  c3_ownership_not_found 1 5
    ⟨none, none, none, none, none, none, none, some true, none⟩
    [⟨5, 2, "HOME", "n", "st", "u", "b", "12345", "d", "", true⟩]
    (by decide)

/-! ### Order status update (claim C4) -/

/-- C4: updating an existing order's status writes the requested status;
it stamps `deliveredAt` with the current clock exactly when the new status
is `DELIVERED` and otherwise keeps the prior `deliveredAt`; every other
field of the order is untouched, and the stored row equals the returned
row. -/
theorem c4_order_status_delivered_stamp (now oid : Nat) (st : String)
    (s : List Order) (o : Order)
    (h : s.find? (fun x => x.id == oid) = some o) :
    ∃ o', (updateOrderStatus now oid st s).1 = some o'
      ∧ (updateOrderStatus now oid st s).2.find? (fun x => x.id == oid) = some o'
      ∧ o'.status = st
      ∧ (st = "DELIVERED" → o'.deliveredAt = some now ∧ o'.deliveredAt ≠ none)
      ∧ (st ≠ "DELIVERED" → o'.deliveredAt = o.deliveredAt)
      ∧ o'.id = o.id ∧ o'.userId = o.userId ∧ o'.total = o.total
      ∧ o'.createdAt = o.createdAt := by
  have hp := List.find?_some h
  have hid : o.id = oid := by simpa using hp
  refine ⟨{ o with
      status := st
      deliveredAt := if st == "DELIVERED" then some now else o.deliveredAt }, ?_, ?_, rfl,
    ?_, ?_, rfl, rfl, rfl, rfl⟩
  · simp [updateOrderStatus, h]
  · have hmap := find?_map_of_pred
      (fun x => if x.id == oid then
        { o with
          status := st
          deliveredAt := if st == "DELIVERED" then some now else o.deliveredAt }
        else x)
      (fun x => x.id == oid) s
      (by
        intro a
        cases hq : (a.id == oid) <;> simp [hq, hid])
    simp only [updateOrderStatus, h]
    rw [hmap, h]
    simp [hid]
  · intro hst; simp [hst]
  · intro hst; simp [hst]

/-- C4 (witness): delivering concrete order 1 at clock 100. -/
theorem c4_order_status_delivered_stamp_witness :
    ∃ o', (updateOrderStatus 100 1 "DELIVERED" [⟨1, 7, "PENDING", 50, 3, none⟩]).1 = some o'
      ∧ (updateOrderStatus 100 1 "DELIVERED"
            [⟨1, 7, "PENDING", 50, 3, none⟩]).2.find? (fun x => x.id == 1) = some o'
      ∧ o'.status = "DELIVERED"
      ∧ ("DELIVERED" = "DELIVERED" → o'.deliveredAt = some 100 ∧ o'.deliveredAt ≠ none)
      ∧ ("DELIVERED" ≠ "DELIVERED" → o'.deliveredAt = Order.deliveredAt ⟨1, 7, "PENDING", 50, 3, none⟩)
      ∧ o'.id = 1 ∧ o'.userId = 7 ∧ o'.total = 50
      ∧ o'.createdAt = 3 :=
  c4_order_status_delivered_stamp 100 1 "DELIVERED"
    [⟨1, 7, "PENDING", 50, 3, none⟩] ⟨1, 7, "PENDING", 50, 3, none⟩ (by decide)

/-! ### Product fetch-by-id view counter (claims C5 and C9) -/

/-- C5: fetching an existing product bumps its stored `viewCount` by
exactly 1, a second fetch of the same id responds with the bumped value,
and fetching a missing id replies 404 with the store untouched. -/
theorem c5_view_count_increment (pid : Nat) (s : List Product) :
    (∀ p, s.find? (fun q => q.id == pid) = some p →
        (getProductById pid s).2.find? (fun q => q.id == pid)
            = some { p with viewCount := p.viewCount + 1 }
          ∧ (getProductById pid (getProductById pid s).2).1
            = some { p with viewCount := p.viewCount + 1 })
    ∧ (s.find? (fun q => q.id == pid) = none → getProductById pid s = (none, s)) := by
  constructor
  · intro p h
    have hp := List.find?_some h
    have hid : p.id = pid := by simpa using hp
    have hmap := find?_map_of_pred
      (fun q => if q.id == pid then { q with viewCount := q.viewCount + 1 } else q)
      (fun q => q.id == pid) s
      (by intro a; cases hq : (a.id == pid) <;> simp [hq])
    have hstore : (getProductById pid s).2.find? (fun q => q.id == pid)
        = some { p with viewCount := p.viewCount + 1 } := by
      simp only [getProductById, h]
      rw [hmap, h]
      simp [hid]
    refine ⟨hstore, ?_⟩
    generalize hs2 : (getProductById pid s).2 = s2 at hstore
    simp [getProductById, hstore]
  · intro h
    simp [getProductById, h]

/-- C5 (witness): a one-product store fetched twice, and a fetch of a
missing id. -/
theorem c5_view_count_increment_witness :
    ((getProductById 1
        [⟨1, "n", "n", "d", 5, 2, "c", "b", true, false, 3, 0, 0, 0⟩]).2.find?
          (fun q => q.id == 1)
        = some ⟨1, "n", "n", "d", 5, 2, "c", "b", true, false, 4, 0, 0, 0⟩
      ∧ (getProductById 1
          (getProductById 1
            [⟨1, "n", "n", "d", 5, 2, "c", "b", true, false, 3, 0, 0, 0⟩]).2).1
        = some ⟨1, "n", "n", "d", 5, 2, "c", "b", true, false, 4, 0, 0, 0⟩)
    ∧ getProductById 2 [⟨1, "n", "n", "d", 5, 2, "c", "b", true, false, 3, 0, 0, 0⟩]
        = (none, [⟨1, "n", "n", "d", 5, 2, "c", "b", true, false, 3, 0, 0, 0⟩]) :=
  ⟨(c5_view_count_increment 1
      [⟨1, "n", "n", "d", 5, 2, "c", "b", true, false, 3, 0, 0, 0⟩]).1
      ⟨1, "n", "n", "d", 5, 2, "c", "b", true, false, 3, 0, 0, 0⟩ (by decide),
   (c5_view_count_increment 2
      [⟨1, "n", "n", "d", 5, 2, "c", "b", true, false, 3, 0, 0, 0⟩]).2 (by decide)⟩

/-- C9: the response of a successful fetch-by-id is the row as read before
the increment: the store afterwards holds `viewCount + 1`, so the response
body is one less than the stored value. -/
theorem c9_response_is_pre_increment (pid : Nat) (s : List Product) (p : Product)
    (h : s.find? (fun q => q.id == pid) = some p) :
    (getProductById pid s).1 = some p
      ∧ ∃ p', (getProductById pid s).2.find? (fun q => q.id == pid) = some p'
          ∧ p'.viewCount = p.viewCount + 1
          ∧ p.viewCount = p'.viewCount - 1 := by
  have hp := List.find?_some h
  have hid : p.id = pid := by simpa using hp
  have hmap := find?_map_of_pred
    (fun q => if q.id == pid then { q with viewCount := q.viewCount + 1 } else q)
    (fun q => q.id == pid) s
    (by intro a; cases hq : (a.id == pid) <;> simp [hq])
  refine ⟨by simp [getProductById, h], { p with viewCount := p.viewCount + 1 }, ?_, rfl, rfl⟩
  simp only [getProductById, h]
  rw [hmap, h]
  simp [hid]

/-- C9 (witness): concrete one-product store. -/
theorem c9_response_is_pre_increment_witness :
    (getProductById 1
        [⟨1, "n", "n", "d", 5, 2, "c", "b", true, false, 3, 0, 0, 0⟩]).1
      = some ⟨1, "n", "n", "d", 5, 2, "c", "b", true, false, 3, 0, 0, 0⟩
    ∧ ∃ p', (getProductById 1
          [⟨1, "n", "n", "d", 5, 2, "c", "b", true, false, 3, 0, 0, 0⟩]).2.find?
            (fun q => q.id == 1) = some p'
        ∧ p'.viewCount = 3 + 1
        ∧ 3 = p'.viewCount - 1 :=
  c9_response_is_pre_increment 1
    [⟨1, "n", "n", "d", 5, 2, "c", "b", true, false, 3, 0, 0, 0⟩]
    ⟨1, "n", "n", "d", 5, 2, "c", "b", true, false, 3, 0, 0, 0⟩ (by decide)

/-! ### Non-default writes leave siblings alone (claim C10) -/

/-- C10: when the request's default flag is absent or `false`, the
mass-unset is skipped: a create appends the new row leaving every existing
row untouched, and an update leaves every address other than the target —
in particular its `isDefault` flag — exactly as it was. -/
theorem c10_non_default_frame (uid newId aid : Nat) (b : AddressBody)
    (s : List Address) (h : b.isDefault ≠ some true) :
    (createAddress uid newId b s).2 = s ++ [(createAddress uid newId b s).1]
      ∧ ((updateAddress uid aid b s).2).filter (fun a => a.id != aid)
          = s.filter (fun a => a.id != aid) := by
  have ht : truthy b.isDefault = false := by
    cases hb : b.isDefault with
    | none => rfl
    | some v =>
      cases v with
      | false => rfl
      | true => exact absurd hb h
  constructor
  · simp [createAddress, ht]
  · cases hfind : s.find? (fun a => a.id == aid) with
    | none => simp [updateAddress, hfind]
    | some existing =>
      by_cases hown : existing.userId == uid
      · have hframe := filter_map_of_fix (writeStep aid b)
          (fun a => a.id != aid) s
          (by
            intro a
            cases hq : (a.id == aid) <;> simp [writeStep, hq, applyBody])
          (by
            intro a hq
            have : (a.id == aid) = false := by
              cases hqq : (a.id == aid) <;> simp_all
            simp [writeStep, this])
        simp [updateAddress, hfind, hown, ht, hframe]
      · simp [updateAddress, hfind, hown]

/-- C10 (witness): caller 1 updates address 5 with no default flag while a
sibling default address 6 exists. -/
theorem c10_non_default_frame_witness :
    (createAddress 1 7
        ⟨some "HOME", none, none, none, none, none, none, none, none⟩
        [⟨6, 1, "WORK", "n", "st", "u", "b", "p", "d", "", true⟩]).2
      = [⟨6, 1, "WORK", "n", "st", "u", "b", "p", "d", "", true⟩]
        ++ [(createAddress 1 7
              ⟨some "HOME", none, none, none, none, none, none, none, none⟩
              [⟨6, 1, "WORK", "n", "st", "u", "b", "p", "d", "", true⟩]).1]
    ∧ ((updateAddress 1 5
          ⟨some "HOME", none, none, none, none, none, none, none, none⟩
          [⟨5, 1, "HOME", "n", "st", "u", "b", "p", "d", "", false⟩,
           ⟨6, 1, "WORK", "n", "st", "u", "b", "p", "d", "", true⟩]).2).filter
            (fun a => a.id != 5)
      = [⟨5, 1, "HOME", "n", "st", "u", "b", "p", "d", "", false⟩,
         ⟨6, 1, "WORK", "n", "st", "u", "b", "p", "d", "", true⟩].filter
            (fun a => a.id != 5) :=
  ⟨(c10_non_default_frame 1 7 5
      ⟨some "HOME", none, none, none, none, none, none, none, none⟩
      [⟨6, 1, "WORK", "n", "st", "u", "b", "p", "d", "", true⟩] (by decide)).1,
   (c10_non_default_frame 1 7 5
      ⟨some "HOME", none, none, none, none, none, none, none, none⟩
      [⟨5, 1, "HOME", "n", "st", "u", "b", "p", "d", "", false⟩,
       ⟨6, 1, "WORK", "n", "st", "u", "b", "p", "d", "", true⟩] (by decide)).2⟩

/-! ### Sales report aggregation (claim C7) -/

/-- The `reduce` of the sales report is a left fold; it computes the sum
of the order totals on top of its accumulator. -/
theorem foldl_add_total (l : List Order) (init : Rat) :
    l.foldl (fun sum o => sum + o.total) init = init + (l.map Order.total).sum := by
  induction l generalizing init with
  | nil => simp
  | cons o l ih => simp [List.foldl_cons, ih, add_assoc]

/-- C7: over the fetched DELIVERED/CONFIRMED orders, `totalRevenue` is the
sum of their `total` fields, `totalOrders` their number, and
`averageOrderValue` is `totalRevenue / totalOrders` for a non-empty fetch
and `0` for an empty one. -/
theorem c7_sales_report_aggregates (startDate endDate : Option Nat)
    (db : List Order) :
    (salesReport startDate endDate db).totalRevenue
        = ((db.filter (salesWhere startDate endDate)).map Order.total).sum
      ∧ (salesReport startDate endDate db).totalOrders
        = (db.filter (salesWhere startDate endDate)).length
      ∧ ((salesReport startDate endDate db).totalOrders ≠ 0 →
          (salesReport startDate endDate db).averageOrderValue
            = (salesReport startDate endDate db).totalRevenue
                / ((salesReport startDate endDate db).totalOrders : Rat))
      ∧ ((salesReport startDate endDate db).totalOrders = 0 →
          (salesReport startDate endDate db).averageOrderValue = 0) := by
  refine ⟨?_, rfl, ?_, ?_⟩
  · simpa using foldl_add_total (db.filter (salesWhere startDate endDate)) 0
  · intro h
    simp only [salesReport] at h ⊢
    simp [h]
  · intro h
    simp only [salesReport] at h ⊢
    simp [h]

/-- C7 (witness): a store with one DELIVERED, one CONFIRMED and one
PENDING order, and an empty store. -/
theorem c7_sales_report_aggregates_witness :
    ((salesReport none none
        [⟨1, 1, "DELIVERED", 30, 0, some 9⟩, ⟨2, 1, "CONFIRMED", 10, 0, none⟩,
         ⟨3, 1, "PENDING", 99, 0, none⟩]).totalRevenue
      = ((([⟨1, 1, "DELIVERED", 30, 0, some 9⟩, ⟨2, 1, "CONFIRMED", 10, 0, none⟩,
            ⟨3, 1, "PENDING", 99, 0, none⟩] : List Order).filter
            (salesWhere none none)).map Order.total).sum)
    ∧ ((salesReport none none
          [⟨1, 1, "DELIVERED", 30, 0, some 9⟩, ⟨2, 1, "CONFIRMED", 10, 0, none⟩,
           ⟨3, 1, "PENDING", 99, 0, none⟩]).totalOrders ≠ 0 →
        (salesReport none none
          [⟨1, 1, "DELIVERED", 30, 0, some 9⟩, ⟨2, 1, "CONFIRMED", 10, 0, none⟩,
           ⟨3, 1, "PENDING", 99, 0, none⟩]).averageOrderValue
          = (salesReport none none
              [⟨1, 1, "DELIVERED", 30, 0, some 9⟩, ⟨2, 1, "CONFIRMED", 10, 0, none⟩,
               ⟨3, 1, "PENDING", 99, 0, none⟩]).totalRevenue
              / ((salesReport none none
                  [⟨1, 1, "DELIVERED", 30, 0, some 9⟩, ⟨2, 1, "CONFIRMED", 10, 0, none⟩,
                   ⟨3, 1, "PENDING", 99, 0, none⟩]).totalOrders : Rat))
    ∧ ((salesReport none none ([] : List Order)).totalOrders = 0 →
        (salesReport none none ([] : List Order)).averageOrderValue = 0) :=
  ⟨(c7_sales_report_aggregates none none
      [⟨1, 1, "DELIVERED", 30, 0, some 9⟩, ⟨2, 1, "CONFIRMED", 10, 0, none⟩,
       ⟨3, 1, "PENDING", 99, 0, none⟩]).1,
   (c7_sales_report_aggregates none none
      [⟨1, 1, "DELIVERED", 30, 0, some 9⟩, ⟨2, 1, "CONFIRMED", 10, 0, none⟩,
       ⟨3, 1, "PENDING", 99, 0, none⟩]).2.2.1,
   (c7_sales_report_aggregates none none ([] : List Order)).2.2.2⟩

/-! ### Public listing filters (claim C8) -/

/-- Every record of a page window comes from the windowed list. -/
theorem mem_of_mem_pageWindow {p : α} {page lim : Nat} {l : List α}
    (h : p ∈ pageWindow page lim l) : p ∈ l :=
  List.drop_subset _ _ (List.take_subset _ _ h)

/-- C8: a public product listing only ever returns active products; with
`minPrice=10`, `maxPrice=50`, `category=Accessories` every returned
product is in that category with price in `[10, 50]`; and the literal
category value `"All"` makes the row predicate identical to having no
category parameter at all. `ord` is the store's `orderBy` pass, which
only rearranges the filtered rows. -/
theorem c8_listing_filters (q : ProductQuery)
    (ord : List Product → List Product)
    (hord : ∀ l x, x ∈ ord l → x ∈ l) (db : List Product) :
    (∀ p ∈ (listProducts q ord db).1, p.isActive = true)
      ∧ (q.minPrice = some 10 → q.maxPrice = some 50 →
          q.category = some "Accessories" →
          ∀ p ∈ (listProducts q ord db).1,
            p.category = "Accessories" ∧ 10 ≤ p.price ∧ p.price ≤ 50)
      ∧ (q.category = some "All" →
          productWhere q = productWhere { q with category := none }) := by
  have hmem : ∀ p ∈ (listProducts q ord db).1, productWhere q p = true := by
    intro p hp
    have h1 : p ∈ ord (db.filter (productWhere q)) := mem_of_mem_pageWindow hp
    have h2 : p ∈ db.filter (productWhere q) := hord _ p h1
    exact (List.mem_filter.1 h2).2
  refine ⟨?_, ?_, ?_⟩
  · intro p hp
    have hw := hmem p hp
    simp only [productWhere, Bool.and_eq_true] at hw
    exact hw.1.1.1.1.1
  · intro hmin hmax hcat p hp
    have hw := hmem p hp
    simp only [productWhere, hmin, hmax, hcat, Bool.and_eq_true] at hw
    refine ⟨?_, ?_, ?_⟩
    · have := hw.1.1.1.1.2
      simp at this
      exact this
    · have := hw.1.1.2
      simpa using this
    · have := hw.1.2
      simpa using this
  · intro hcat
    funext p
    simp [productWhere, hcat]

/-- C8 (witness): a two-product store (one active Accessories product in
range, one inactive) listed with the example query, the identity as the
store's ordering. -/
theorem c8_listing_filters_witness :
    (∀ p ∈ (listProducts
        ⟨some "Accessories", none, some 10, some 50, none, none, none⟩ id
        [⟨1, "n", "n", "d", 20, 2, "Accessories", "b", true, false, 0, 0, 0, 0⟩,
         ⟨2, "m", "m", "d", 20, 2, "Accessories", "b", false, false, 0, 0, 0, 0⟩]).1,
        p.isActive = true)
      ∧ (∀ p ∈ (listProducts
          ⟨some "Accessories", none, some 10, some 50, none, none, none⟩ id
          [⟨1, "n", "n", "d", 20, 2, "Accessories", "b", true, false, 0, 0, 0, 0⟩,
           ⟨2, "m", "m", "d", 20, 2, "Accessories", "b", false, false, 0, 0, 0, 0⟩]).1,
          p.category = "Accessories" ∧ 10 ≤ p.price ∧ p.price ≤ 50) :=
  ⟨(c8_listing_filters
      ⟨some "Accessories", none, some 10, some 50, none, none, none⟩ id
      (fun _ _ h => h)
      [⟨1, "n", "n", "d", 20, 2, "Accessories", "b", true, false, 0, 0, 0, 0⟩,
       ⟨2, "m", "m", "d", 20, 2, "Accessories", "b", false, false, 0, 0, 0, 0⟩]).1,
   (c8_listing_filters
      ⟨some "Accessories", none, some 10, some 50, none, none, none⟩ id
      (fun _ _ h => h)
      [⟨1, "n", "n", "d", 20, 2, "Accessories", "b", true, false, 0, 0, 0, 0⟩,
       ⟨2, "m", "m", "d", 20, 2, "Accessories", "b", false, false, 0, 0, 0, 0⟩]).2.1
      rfl rfl rfl⟩

/-! ### Pagination (claim C6) -/

/-- `Math.ceil(total / limit)` as computed over naturals agrees with the
mathematical ceiling of the exact quotient whenever `limit > 0`. -/
theorem jsCeilDiv_eq_ceil (total lim : Nat) (h : 0 < lim) :
    (jsCeilDiv total lim : ℤ) = ⌈(total : ℚ) / (lim : ℚ)⌉ := by
  have hlq : (0 : ℚ) < (lim : ℚ) := by exact_mod_cast h
  have hdm := Nat.div_add_mod (total + lim - 1) lim
  have hr : (total + lim - 1) % lim < lim := Nat.mod_lt _ h
  have key2 : lim * jsCeilDiv total lim + (total + lim - 1) % lim + 1
      = total + lim := by simp only [jsCeilDiv]; omega
  have keyq : (lim : ℚ) * ((jsCeilDiv total lim : ℕ) : ℚ)
      + (((total + lim - 1) % lim : ℕ) : ℚ) + 1 = (total : ℚ) + lim := by
    exact_mod_cast key2
  have hrq1 : (((total + lim - 1) % lim : ℕ) : ℚ) + 1 ≤ (lim : ℚ) := by
    exact_mod_cast hr
  have hr0 : (0 : ℚ) ≤ (((total + lim - 1) % lim : ℕ) : ℚ) := by positivity
  symm
  rw [Int.ceil_eq_iff]
  constructor
  · push_cast
    rw [lt_div_iff₀ hlq]
    linarith [keyq, hr0]
  · push_cast
    rw [div_le_iff₀ hlq]
    linarith [keyq, hrq1]

/-- C6: for a valid effective page and limit (defaults 1 and 20), both the
public product listing and the admin order listing return the window that
skips `(page-1)*limit` rows and takes `limit` rows of the ordered matching
set, return at most `limit` records, and report
`pages = ceil(total/limit)`. -/
theorem c6_pagination (q : ProductQuery) (ordP : List Product → List Product)
    (db : List Product) (status : Option String) (page? lim? : Option Nat)
    (ordO : List Order → List Order) (odb : List Order)
    (hlimP : 0 < q.limit.getD 20) (hlimO : 0 < lim?.getD 20) :
    ((listProducts q ordP db).1
        = ((ordP (db.filter (productWhere q))).drop
            ((q.page.getD 1 - 1) * q.limit.getD 20)).take (q.limit.getD 20))
      ∧ (listProducts q ordP db).1.length ≤ q.limit.getD 20
      ∧ (((listProducts q ordP db).2.pages : ℤ)
          = ⌈((listProducts q ordP db).2.total : ℚ)
              / ((listProducts q ordP db).2.limit : ℚ)⌉)
      ∧ ((adminListOrders status page? lim? ordO odb).1
          = ((ordO (odb.filter (fun o =>
              match status with
              | some t => o.status == t
              | none => true))).drop
                ((page?.getD 1 - 1) * lim?.getD 20)).take (lim?.getD 20))
      ∧ (adminListOrders status page? lim? ordO odb).1.length ≤ lim?.getD 20
      ∧ (((adminListOrders status page? lim? ordO odb).2.pages : ℤ)
          = ⌈((adminListOrders status page? lim? ordO odb).2.total : ℚ)
              / ((adminListOrders status page? lim? ordO odb).2.limit : ℚ)⌉) := by
  refine ⟨rfl, ?_, ?_, rfl, ?_, ?_⟩
  · exact (List.length_take_le _ _).trans (le_refl _)
  · exact jsCeilDiv_eq_ceil _ _ hlimP
  · exact (List.length_take_le _ _).trans (le_refl _)
  · exact jsCeilDiv_eq_ceil _ _ hlimO

/-- C6 (witness): three matching products listed with `page=2`, `limit=2`
(pages must be 2), and an order store listed with the defaults. -/
theorem c6_pagination_witness :
    (listProducts ⟨none, none, none, none, none, some 2, some 2⟩ id
        [⟨1, "a", "a", "d", 5, 1, "c", "b", true, false, 0, 0, 0, 0⟩,
         ⟨2, "b", "b", "d", 5, 1, "c", "b", true, false, 0, 0, 0, 0⟩,
         ⟨3, "c", "c", "d", 5, 1, "c", "b", true, false, 0, 0, 0, 0⟩]).1.length ≤ 2
      ∧ (((listProducts ⟨none, none, none, none, none, some 2, some 2⟩ id
            [⟨1, "a", "a", "d", 5, 1, "c", "b", true, false, 0, 0, 0, 0⟩,
             ⟨2, "b", "b", "d", 5, 1, "c", "b", true, false, 0, 0, 0, 0⟩,
             ⟨3, "c", "c", "d", 5, 1, "c", "b", true, false, 0, 0, 0, 0⟩]).2.pages : ℤ)
          = ⌈((listProducts ⟨none, none, none, none, none, some 2, some 2⟩ id
                [⟨1, "a", "a", "d", 5, 1, "c", "b", true, false, 0, 0, 0, 0⟩,
                 ⟨2, "b", "b", "d", 5, 1, "c", "b", true, false, 0, 0, 0, 0⟩,
                 ⟨3, "c", "c", "d", 5, 1, "c", "b", true, false, 0, 0, 0, 0⟩]).2.total : ℚ)
              / ((listProducts ⟨none, none, none, none, none, some 2, some 2⟩ id
                    [⟨1, "a", "a", "d", 5, 1, "c", "b", true, false, 0, 0, 0, 0⟩,
                     ⟨2, "b", "b", "d", 5, 1, "c", "b", true, false, 0, 0, 0, 0⟩,
                     ⟨3, "c", "c", "d", 5, 1, "c", "b", true, false, 0, 0, 0, 0⟩]).2.limit : ℚ)⌉)
      ∧ (adminListOrders none none none id
          [⟨1, 1, "PENDING", 9, 0, none⟩]).1.length ≤ 20 :=
  ⟨(c6_pagination ⟨none, none, none, none, none, some 2, some 2⟩ id
      [⟨1, "a", "a", "d", 5, 1, "c", "b", true, false, 0, 0, 0, 0⟩,
       ⟨2, "b", "b", "d", 5, 1, "c", "b", true, false, 0, 0, 0, 0⟩,
       ⟨3, "c", "c", "d", 5, 1, "c", "b", true, false, 0, 0, 0, 0⟩]
      none none none id [⟨1, 1, "PENDING", 9, 0, none⟩]
      (by decide) (by decide)).2.1,
   (c6_pagination ⟨none, none, none, none, none, some 2, some 2⟩ id
      [⟨1, "a", "a", "d", 5, 1, "c", "b", true, false, 0, 0, 0, 0⟩,
       ⟨2, "b", "b", "d", 5, 1, "c", "b", true, false, 0, 0, 0, 0⟩,
       ⟨3, "c", "c", "d", 5, 1, "c", "b", true, false, 0, 0, 0, 0⟩]
      none none none id [⟨1, 1, "PENDING", 9, 0, none⟩]
      (by decide) (by decide)).2.2.1,
   (c6_pagination ⟨none, none, none, none, none, some 2, some 2⟩ id
      [⟨1, "a", "a", "d", 5, 1, "c", "b", true, false, 0, 0, 0, 0⟩,
       ⟨2, "b", "b", "d", 5, 1, "c", "b", true, false, 0, 0, 0, 0⟩,
       ⟨3, "c", "c", "d", 5, 1, "c", "b", true, false, 0, 0, 0, 0⟩]
      none none none id [⟨1, 1, "PENDING", 9, 0, none⟩]
      (by decide) (by decide)).2.2.2.2.1⟩

/-! ### Default-address invariant (claim C1) -/

/-- Writing the same optional field twice is the same as writing it
once. -/
theorem opt_getD_idem (o : Option α) (x : α) : o.getD (o.getD x) = o.getD x := by
  cases o <;> rfl

/-- Applying the same update body twice is the same as applying it
once. -/
theorem applyBody_idem (b : AddressBody) (a : Address) :
    applyBody b (applyBody b a) = applyBody b a := by
  simp [applyBody, opt_getD_idem]

/-- Neither the mass-unset nor the row write changes an address's id. -/
theorem step_preserves_id (uid aid : Nat) (b : AddressBody) (a : Address) :
    ((writeStep aid b (unsetStep uid aid a)).id == aid) = (a.id == aid) := by
  by_cases hid : a.id = aid <;> by_cases hu : a.userId = uid <;>
    by_cases hdf : a.isDefault = true <;>
      simp [unsetStep, writeStep, applyBody, bne, hid, hu, hdf]

/-- One unset-then-write round with a truthy default flag is idempotent on
each row. -/
theorem step_idem (uid aid : Nat) (b : AddressBody) (hd : b.isDefault = some true)
    (a : Address) :
    writeStep aid b (unsetStep uid aid (writeStep aid b (unsetStep uid aid a)))
      = writeStep aid b (unsetStep uid aid a) := by
  by_cases hid : a.id = aid <;> by_cases hu : a.userId = uid <;>
    by_cases hdf : a.isDefault = true <;>
      simp [unsetStep, writeStep, applyBody, bne, opt_getD_idem, hid, hu, hdf, hd]

/-- After the create path's mass-unset, no address of the user is still
flagged default. -/
theorem unsetAll_not_default (uid : Nat) (a : Address) :
    ((unsetAll uid a).userId == uid && (unsetAll uid a).isDefault) = false := by
  by_cases hu : a.userId = uid <;> by_cases hdf : a.isDefault = true <;>
    simp [unsetAll, hu, hdf]

/-- C1 (counterexample): repeating the same default-setting create request
does not leave the state unchanged — the second request inserts a second
address row (ids 1 and 2 are the successive database-generated keys). -/
theorem c1_default_unique_counterexample :
    (createAddress 1 2 ⟨none, none, none, none, none, none, none, some true, none⟩
        (createAddress 1 1 ⟨none, none, none, none, none, none, none, some true, none⟩
          []).2).2
      ≠ (createAddress 1 1 ⟨none, none, none, none, none, none, none, some true, none⟩
          []).2 := by
  decide

/-- `countP` only looks at the predicate's verdicts on the members. -/
theorem countP_congr_mem (p q : α → Bool) (l : List α)
    (h : ∀ a ∈ l, p a = q a) : l.countP p = l.countP q := by
  induction l with
  | nil => rfl
  | cons a l ih =>
    simp [List.countP_cons, h a (List.mem_cons_self a l),
      ih fun b hb => h b (List.mem_cons_of_mem a hb)]

/-- C1 (amended): a create whose default flag is `true` leaves the calling
user with exactly one default address, whatever the prior store — the
caller's very first address included. An update whose default flag is
`true` does the same for its `target` row (the addressed row, owned by the
caller, ids unique in the store as the database guarantees), and is
idempotent on the store: running the same request again does not change
the state. (Repeating a create is not state-idempotent — it inserts a new
row each time, see the counterexample — but each repetition re-establishes
the exactly-one-default invariant.) -/
theorem c1_default_unique_amended (uid newId aid : Nat) (b : AddressBody)
    (s : List Address) (hd : b.isDefault = some true) :
    countDefaults uid (createAddress uid newId b s).2 = 1
      ∧ (∀ target ∈ s, target.id = aid → target.userId = uid →
          (s.map Address.id).Nodup →
          countDefaults uid (updateAddress uid aid b s).2 = 1
            ∧ (updateAddress uid aid b (updateAddress uid aid b s).2).2
                = (updateAddress uid aid b s).2) := by
  have htr : truthy b.isDefault = true := by rw [hd]; rfl
  refine ⟨?_, ?_⟩
  · -- create: unset every default of the user, then insert one default row
    have hnil : (s.map (unsetAll uid)).filter
        (fun a => a.userId == uid && a.isDefault) = [] := by
      refine List.filter_eq_nil_iff.2 ?_
      intro x hx
      obtain ⟨a, _, rfl⟩ := List.mem_map.1 hx
      simp [unsetAll_not_default]
    simp [createAddress, htr, countDefaults, List.filter_append, hnil]
  intro target ht htid hown hnodup
  -- the findUnique of the update path succeeds and returns the target
  obtain ⟨found, hfound⟩ : ∃ x, s.find? (fun a => a.id == aid) = some x := by
    cases hf : s.find? (fun a => a.id == aid) with
    | some x => exact ⟨x, rfl⟩
    | none =>
      have := List.find?_eq_none.1 hf target ht
      simp [htid] at this
  have hfmem : found ∈ s := List.mem_of_find?_eq_some hfound
  have hfid : found.id = aid := by simpa using List.find?_some hfound
  have hfeq : found = target :=
    List.inj_on_of_nodup_map hnodup hfmem ht (by rw [hfid, htid])
  have hfown : found.userId = uid := by rw [hfeq]; exact hown
  -- the post-state of the update path
  have hstate : (updateAddress uid aid b s).2
      = s.map (fun a => writeStep aid b (unsetStep uid aid a)) := by
    simp [updateAddress, hfound, hfown, htr, List.map_map, Function.comp]
  refine ⟨?_, ?_⟩
  · -- update: each row of the user ends default exactly when it is the target
    rw [hstate, countDefaults, ← List.countP_eq_length_filter, List.countP_map]
    have hpt : ∀ a ∈ s,
        ((fun x => x.userId == uid && x.isDefault)
            ∘ fun x => writeStep aid b (unsetStep uid aid x)) a
          = (a.id == aid) := by
      intro a ha
      by_cases hid : a.id = aid
      · have haeq : a = target :=
          List.inj_on_of_nodup_map hnodup ha ht (by rw [hid, htid])
        have hau : a.userId = uid := by rw [haeq]; exact hown
        simp [unsetStep, writeStep, applyBody, bne, hid, hau, hd]
      · by_cases hu : a.userId = uid <;> by_cases hdf : a.isDefault = true <;>
          simp [unsetStep, writeStep, applyBody, bne, hid, hu, hdf]
    rw [countP_congr_mem _ _ s hpt]
    have hcount : s.countP (fun a => a.id == aid)
        = (s.map Address.id).count aid := by
      rw [List.count, List.countP_map]
      rfl
    rw [hcount]
    exact List.count_eq_one_of_mem hnodup (List.mem_map.2 ⟨target, ht, htid⟩)
  · -- idempotence of the update on the store
    set s2 := (updateAddress uid aid b s).2 with hs2def
    have hs2 : s2 = s.map (fun a => writeStep aid b (unsetStep uid aid a)) := hstate
    have hfind2 : s2.find? (fun a => a.id == aid)
        = some (writeStep aid b (unsetStep uid aid found)) := by
      rw [hs2, find?_map_of_pred _ _ _ (step_preserves_id uid aid b), hfound]
      rfl
    have hfid2 : (writeStep aid b (unsetStep uid aid found)).userId = uid := by
      have hun : unsetStep uid aid found = found := by
        simp [unsetStep, bne, hfid]
      rw [hun, writeStep]
      simp [hfid, applyBody, hfown]
    have hstate2 : (updateAddress uid aid b s2).2
        = s2.map (fun a => writeStep aid b (unsetStep uid aid a)) := by
      simp [updateAddress, hfind2, hfid2, htr, List.map_map, Function.comp]
    rw [hstate2]
    have hid2 : ∀ x ∈ s2, writeStep aid b (unsetStep uid aid x) = x := by
      intro x hx
      rw [hs2] at hx
      obtain ⟨a, _, rfl⟩ := List.mem_map.1 hx
      exact step_idem uid aid b hd a
    rw [List.map_congr_left hid2]
    exact List.map_id s2

/-- C1 (witness for the amended theorem): user 1 creates a first default
address into an empty store, creates a default while address 6 already is
one, and updates address 5 to be the default while address 6 currently
is. -/
theorem c1_default_unique_amended_witness :
    countDefaults 1 (createAddress 1 9
        ⟨none, none, none, none, none, none, none, some true, none⟩ []).2 = 1
      ∧ countDefaults 1 (createAddress 1 9
          ⟨none, none, none, none, none, none, none, some true, none⟩
          [⟨5, 1, "HOME", "n", "st", "u", "b", "p", "d", "", false⟩,
           ⟨6, 1, "WORK", "n", "st", "u", "b", "p", "d", "", true⟩]).2 = 1
      ∧ countDefaults 1 (updateAddress 1 5
          ⟨none, none, none, none, none, none, none, some true, none⟩
          [⟨5, 1, "HOME", "n", "st", "u", "b", "p", "d", "", false⟩,
           ⟨6, 1, "WORK", "n", "st", "u", "b", "p", "d", "", true⟩]).2 = 1
      ∧ (updateAddress 1 5
          ⟨none, none, none, none, none, none, none, some true, none⟩
          (updateAddress 1 5
            ⟨none, none, none, none, none, none, none, some true, none⟩
            [⟨5, 1, "HOME", "n", "st", "u", "b", "p", "d", "", false⟩,
             ⟨6, 1, "WORK", "n", "st", "u", "b", "p", "d", "", true⟩]).2).2
        = (updateAddress 1 5
            ⟨none, none, none, none, none, none, none, some true, none⟩
            [⟨5, 1, "HOME", "n", "st", "u", "b", "p", "d", "", false⟩,
             ⟨6, 1, "WORK", "n", "st", "u", "b", "p", "d", "", true⟩]).2 :=
  ⟨(c1_default_unique_amended 1 9 5
      ⟨none, none, none, none, none, none, none, some true, none⟩ [] rfl).1,
   (c1_default_unique_amended 1 9 5
      ⟨none, none, none, none, none, none, none, some true, none⟩
      [⟨5, 1, "HOME", "n", "st", "u", "b", "p", "d", "", false⟩,
       ⟨6, 1, "WORK", "n", "st", "u", "b", "p", "d", "", true⟩] rfl).1,
   ((c1_default_unique_amended 1 9 5
      ⟨none, none, none, none, none, none, none, some true, none⟩
      [⟨5, 1, "HOME", "n", "st", "u", "b", "p", "d", "", false⟩,
       ⟨6, 1, "WORK", "n", "st", "u", "b", "p", "d", "", true⟩] rfl).2
      ⟨5, 1, "HOME", "n", "st", "u", "b", "p", "d", "", false⟩
      (by decide) rfl rfl (by decide)).1,
   ((c1_default_unique_amended 1 9 5
      ⟨none, none, none, none, none, none, none, some true, none⟩
      [⟨5, 1, "HOME", "n", "st", "u", "b", "p", "d", "", false⟩,
       ⟨6, 1, "WORK", "n", "st", "u", "b", "p", "d", "", true⟩] rfl).2
      ⟨5, 1, "HOME", "n", "st", "u", "b", "p", "d", "", false⟩
      (by decide) rfl rfl (by decide)).2⟩

end Soora
